import Mathlib

/-!
Shallow embedding of the in-memory library engine of
`src/library.js` (class `Library`) from the repository
`Kata_library_Management_System`, together with theorems settling the
frozen claims about its specification.

Modelling conventions:
* JS `Map` objects are embedded as association lists (`List (key × value)`),
  which preserve the insertion order that JS `Map` iteration guarantees.
  `Map.get` is first-match lookup, `Map.set` replaces in place when the key
  exists and appends otherwise, `Map.delete` removes the first occurrence —
  exactly the observable behaviour of JS `Map` (whose keys are unique).
* JS `Set` objects of strings are embedded as duplicate-free `List String`
  in insertion order; `Set.add` appends when absent.
* Timestamps (`Date.now()`, `new Date()`) are milliseconds since the epoch,
  embedded as `Int` and threaded into each operation as an explicit `now`
  parameter; `new Date().getFullYear()` is threaded as `currentYear`.
* JS exceptions become an explicit error component of the result; since JS
  mutations performed before a `throw` survive, every operation returns the
  post-call state next to the result (`Except JsError α × Library`).
* JS falsiness on the string/number arguments of `addBook`:
  `!s` for a string is `s = ""`, `!n` for an integer is `n = 0`.
-/

namespace LibMS

/-- JS error values thrown by the code: `Error(msg)`, `TypeError` raised by
built-ins such as the `Map` constructor, and the parse failure raised by
`JSON.parse` on malformed text. -/
inductive JsError where
  | jsError (msg : String)
  | typeFail (msg : String)
  | parseFail (msg : String)
deriving DecidableEq, Repr

/-- Modelled from the spec: the `Book` entity of `src/book.js`, which is
imported by `src/library.js` but absent from the sources. Per the spec's
data model (§3) and the repository's tests, `new Book(isbn, title, author,
publicationYear)` stores the four fields and initializes the availability
flag to `true`. -/
structure Book where
  isbn : String
  title : String
  author : String
  publicationYear : Int
  isAvailable : Bool
deriving DecidableEq, Repr

/-- The `action` field of a borrow-history record: `"borrow"` or `"return"`
(`ret` here, since `return` is reserved in Lean). -/
inductive Action where
  | borrow
  | ret
deriving DecidableEq, Repr

/-- One record pushed onto `this.borrowHistory.get(userId)`:
`{ isbn, action, timestamp: new Date() }`. -/
structure Event where
  isbn : String
  action : Action
  timestamp : Int
deriving DecidableEq, Repr

/-- First-match lookup, i.e. JS `Map.prototype.get` (JS maps cannot hold a
key twice, so first-match agrees with JS on every state the code builds). -/
def mapGet {α : Type} (m : List (String × α)) (k : String) : Option α :=
  match m with
  | [] => none
  | (k', v) :: rest => if k' = k then some v else mapGet rest k

/-- JS `Map.prototype.has`. -/
def mapHas {α : Type} (m : List (String × α)) (k : String) : Bool :=
  (mapGet m k).isSome

/-- JS `Map.prototype.set`: replace in place when the key is present
(keeping its position), append otherwise. -/
def mapSet {α : Type} (m : List (String × α)) (k : String) (v : α) :
    List (String × α) :=
  match m with
  | [] => [(k, v)]
  | (k', v') :: rest =>
      if k' = k then (k', v) :: rest else (k', v') :: mapSet rest k v

/-- JS `Map.prototype.delete`: remove the (unique) occurrence of the key. -/
def mapDelete {α : Type} (m : List (String × α)) (k : String) :
    List (String × α) :=
  match m with
  | [] => []
  | (k', v') :: rest => if k' = k then rest else (k', v') :: mapDelete rest k

/-- The state of a `Library` instance. The JS class stores
`performanceMetrics` as a nested object `{ startTime, operations,
lastOptimization }`; it is flattened into the three trailing fields here. -/
structure Library where
  books : List (String × Book)
  borrowHistory : List (String × List Event)
  categories : List (String × List String)
  operations : Nat
  startTime : Int
  lastOptimization : Int
deriving DecidableEq, Repr

/-- `new Library()` at wall-clock instant `t0` (`Date.now()`). -/
def Library.init (t0 : Int) : Library :=
  { books := []
    borrowHistory := []
    categories := []
    operations := 0
    startTime := t0
    lastOptimization := t0 }

/-- `library.js` `addBook(isbn, title, author, publicationYear)`.
`currentYear` is `new Date().getFullYear()` at call time. -/
def addBook (lib : Library) (currentYear : Int) (isbn title author : String)
    (publicationYear : Int) : Except JsError Book × Library :=
  let lib1 : Library := { lib with operations := lib.operations + 1 }
  if isbn = "" ∨ title = "" ∨ author = "" ∨ publicationYear = 0 then
    (.error (.jsError "All book details are required"), lib1)
  else if publicationYear < 1900 ∨ publicationYear > currentYear then
    (.error (.jsError "Invalid publication year"), lib1)
  else if mapHas lib1.books isbn then
    (.error (.jsError "Book with this ISBN already exists"), lib1)
  else
    let book : Book := ⟨isbn, title, author, publicationYear, true⟩
    (.ok book, { lib1 with books := mapSet lib1.books isbn book })

/-- `library.js` `addBookWithCategory(isbn, title, author, year, category)`. -/
def addBookWithCategory (lib : Library) (currentYear : Int)
    (isbn title author : String) (year : Int) (category : String) :
    Except JsError Book × Library :=
  match addBook lib currentYear isbn title author year with
  | (.error e, lib') => (.error e, lib')
  | (.ok book, lib') =>
    let lib2 :=
      if mapHas lib'.categories category then lib'
      else { lib' with categories := mapSet lib'.categories category [] }
    let s := (mapGet lib2.categories category).getD []
    let s' := if s.contains isbn then s else s ++ [isbn]
    (.ok book, { lib2 with categories := mapSet lib2.categories category s' })

/-- `library.js` `borrowBook(isbn, userId = "anonymous")`, with the actor
passed explicitly; `now` is the instant captured by `new Date()`. -/
def borrowBook (lib : Library) (now : Int) (isbn userId : String) :
    Except JsError Book × Library :=
  let lib1 : Library := { lib with operations := lib.operations + 1 }
  match mapGet lib1.books isbn with
  | none => (.error (.jsError "Book not found"), lib1)
  | some book =>
    if book.isAvailable = false then
      (.error (.jsError "Book is not available"), lib1)
    else
      let book' : Book := { book with isAvailable := false }
      let lib2 := { lib1 with books := mapSet lib1.books isbn book' }
      let hist :=
        if mapHas lib2.borrowHistory userId then lib2.borrowHistory
        else mapSet lib2.borrowHistory userId []
      let lib3 :=
        { lib2 with
          borrowHistory :=
            mapSet hist userId
              ((mapGet hist userId).getD [] ++ [⟨isbn, Action.borrow, now⟩]) }
      (.ok book', lib3)

/-- The JS default parameter `userId = "anonymous"` of `borrowBook`. -/
def borrowBookDefault (lib : Library) (now : Int) (isbn : String) :
    Except JsError Book × Library :=
  borrowBook lib now isbn "anonymous"

/-- `library.js` `returnBook(isbn, userId = "anonymous")`. Note that the
source appends the `return` event only under
`if (this.borrowHistory.has(userId))` — no log is created for an unknown
actor. -/
def returnBook (lib : Library) (now : Int) (isbn userId : String) :
    Except JsError Book × Library :=
  let lib1 : Library := { lib with operations := lib.operations + 1 }
  match mapGet lib1.books isbn with
  | none => (.error (.jsError "Book not found"), lib1)
  | some book =>
    if book.isAvailable = true then
      (.error (.jsError "Book is already in library"), lib1)
    else
      let book' : Book := { book with isAvailable := true }
      let lib2 := { lib1 with books := mapSet lib1.books isbn book' }
      let lib3 :=
        if mapHas lib2.borrowHistory userId then
          { lib2 with
            borrowHistory :=
              mapSet lib2.borrowHistory userId
                ((mapGet lib2.borrowHistory userId).getD []
                  ++ [⟨isbn, Action.ret, now⟩]) }
        else lib2
      (.ok book', lib3)

/-- The JS default parameter `userId = "anonymous"` of `returnBook`. -/
def returnBookDefault (lib : Library) (now : Int) (isbn : String) :
    Except JsError Book × Library :=
  returnBook lib now isbn "anonymous"

/-- `library.js` `deleteBook(isbn)`: removes the key from every category
set, then from the registry; returns `this.books.delete(isbn)`. -/
def deleteBook (lib : Library) (isbn : String) :
    Except JsError Bool × Library :=
  let lib1 : Library := { lib with operations := lib.operations + 1 }
  match mapGet lib1.books isbn with
  | none => (.error (.jsError "Book not found"), lib1)
  | some book =>
    if book.isAvailable = false then
      (.error (.jsError "Cannot delete borrowed book"), lib1)
    else
      let lib2 :=
        { lib1 with
          categories :=
            lib1.categories.map
              (fun (p : String × List String) =>
                (p.1, p.2.filter (fun i => i != isbn))) }
      (.ok (mapHas lib2.books isbn), { lib2 with books := mapDelete lib2.books isbn })

/-- `library.js` `getUserHistory(userId)`. -/
def getUserHistory (lib : Library) (userId : String) : List Event :=
  (mapGet lib.borrowHistory userId).getD []

/-- JS `String.prototype.toLowerCase()`, for the ASCII range the code and
tests exercise: each character `A`-`Z` is shifted to its lowercase form. -/
def lowerStr (s : String) : String :=
  String.mk (s.data.map Char.toLower)

/-- Does the first list start with the second one? Helper for the JS
`String.prototype.includes` substring test. -/
def strStarts : List Char → List Char → Bool
  | _, [] => true
  | [], _ :: _ => false
  | c :: cs, p :: ps => c = p && strStarts cs ps

/-- Contiguous-substring test on character lists: `containsSub s pat` holds
when `pat` occurs contiguously inside `s`. -/
def containsSub (s pat : List Char) : Bool :=
  match s with
  | [] => strStarts [] pat
  | _ :: rest => strStarts s pat || containsSub rest pat

/-- JS `haystack.includes(needle)` (substring containment). -/
def strIncludes (haystack needle : String) : Bool :=
  containsSub haystack.data needle.data

/-- `library.js` `searchBooks(query)`. The argument is `Option String`:
`none` is JS `undefined` (an absent query); both `undefined` and `""` are
falsy, so `if (!query) return []` covers them. -/
def searchBooks (lib : Library) (query : Option String) :
    List Book × Library :=
  let lib1 : Library := { lib with operations := lib.operations + 1 }
  match query with
  | none => ([], lib1)
  | some q =>
    if q = "" then ([], lib1)
    else
      let searchTerm := lowerStr q
      ((lib1.books.map Prod.snd).filter
        (fun book =>
          strIncludes (lowerStr book.title) searchTerm ||
          strIncludes (lowerStr book.author) searchTerm ||
          strIncludes (lowerStr book.isbn) searchTerm ||
          strIncludes (toString book.publicationYear) searchTerm),
       lib1)

/-- The record returned by `getBorrowingStats`. -/
structure Stats where
  totalBorrows : Nat
  activeLoans : Nat
  popularBooks : List (String × Nat)
  averageLoanDuration : Int
deriving DecidableEq, Repr

/-- One step of the `getBorrowingStats` history scan: on a `borrow` record,
increment `totalBorrows` and bump `popularBooks[record.isbn]`
(`(popularBooks.get(isbn) || 0) + 1`). -/
def statsStep (acc : Nat × List (String × Nat)) (e : Event) :
    Nat × List (String × Nat) :=
  if e.action = Action.borrow then
    (acc.1 + 1, mapSet acc.2 e.isbn ((mapGet acc.2 e.isbn).getD 0 + 1))
  else acc

/-- The double `forEach` of `getBorrowingStats` over the borrow history
(map insertion order outside, log order inside). -/
def borrowCounts (h : List (String × List Event)) :
    Nat × List (String × Nat) :=
  h.foldl (fun acc p => p.2.foldl statsStep acc) (0, [])

/-- `library.js` `getBorrowingStats()`. The source initializes
`averageLoanDuration: 0` and never assigns it again, so the returned field
is the initial `0`. -/
def getBorrowingStats (lib : Library) : Stats :=
  let counts := borrowCounts lib.borrowHistory
  { totalBorrows := counts.1
    activeLoans :=
      ((lib.books.map Prod.snd).filter
        (fun book => book.isAvailable = false)).length
    popularBooks := counts.2
    averageLoanDuration := 0 }

/-- A JS number as produced by the metrics arithmetic: a finite value
(idealized as an exact rational) or one of the IEEE-754 non-finite values
that division can produce. -/
inductive JsNum where
  | num (q : ℚ)
  | nan
  | inf
  | negInf
deriving DecidableEq, Repr

/-- JS `/` on numbers at the points the code reaches: a zero divisor gives
`NaN` (for `0 / 0`) or a signed infinity, any other divisor divides. -/
def jsDiv (a b : ℚ) : JsNum :=
  if b = 0 then
    if a = 0 then JsNum.nan else if a > 0 then JsNum.inf else JsNum.negInf
  else JsNum.num (a / b)

/-- The record returned by `getPerformanceMetrics` (the spread of
`performanceMetrics` plus the two computed fields). -/
structure Metrics where
  startTime : Int
  operations : Nat
  lastOptimization : Int
  uptime : Int
  operationsPerSecond : JsNum
deriving DecidableEq, Repr

/-- `library.js` `getPerformanceMetrics()`; `now` is `Date.now()` at call
time (the two `Date.now()` reads in the source are modelled as the same
instant). -/
def getPerformanceMetrics (lib : Library) (now : Int) : Metrics :=
  { startTime := lib.startTime
    operations := lib.operations
    lastOptimization := lib.lastOptimization
    uptime := now - lib.startTime
    operationsPerSecond :=
      jsDiv (lib.operations : ℚ) (((now - lib.startTime : Int) : ℚ) / 1000) }

/-- Decidable equality for `Except` results. -/
def exceptDecEq {ε α : Type} [DecidableEq ε] [DecidableEq α] :
    DecidableEq (Except ε α) := fun a b =>
  match a, b with
  | .ok x, .ok y =>
      if h : x = y then .isTrue (by rw [h]) else .isFalse (by simp [h])
  | .ok _, .error _ => .isFalse (by simp)
  | .error _, .ok _ => .isFalse (by simp)
  | .error e, .error f =>
      if h : e = f then .isTrue (by rw [h]) else .isFalse (by simp [h])

instance {ε α : Type} [DecidableEq ε] [DecidableEq α] :
    DecidableEq (Except ε α) := exceptDecEq

/-!
The snapshot layer (`exportToJSON` / `importFromJSON`).

`Jv` embeds the JS values that flow through the snapshot code: the JSON
values produced by `JSON.parse` (`null`, booleans, numbers, strings,
arrays, plain objects — numbers restricted to the integers the engine
actually stores), plus the live runtime values that sit in a `Library`
before serialization: `undefined`, `Set` objects of strings, and `Date`
objects.  `JSON.stringify` collapses the latter: a `Set` has no own
enumerable properties, so it serializes as the empty object `{}`, and a
`Date` serializes (via `toJSON`/`toISOString`) as its ISO-8601 string.
-/

/-- A JS value reachable in the snapshot code (see the section comment). -/
inductive Jv where
  | null
  | undef
  | bool (b : Bool)
  | num (n : Int)
  | str (s : String)
  | arr (elems : List Jv)
  | obj (fields : List (String × Jv))
  | set (elems : List String)
  | date (t : Int)

/-- Left-pad the decimal form of `n` with zeros to width `w`. -/
def padNat (w : Nat) (n : Nat) : String :=
  let s := toString n
  String.mk (List.replicate (w - s.length) '0') ++ s

/-- Civil date from a day count relative to 1970-01-01 (Gregorian,
Hinnant's `civil_from_days` algorithm): returns `(year, month, day)`. -/
def civilFromDays (z0 : Int) : Int × Nat × Nat :=
  let z := z0 + 719468
  let era := Int.ediv z 146097
  let doe := (z - era * 146097).toNat
  let yoe := (doe - doe / 1460 + doe / 36524 - doe / 146096) / 365
  let y := (yoe : Int) + era * 400
  let doy := doe - (365 * yoe + yoe / 4 - yoe / 100)
  let mp := (5 * doy + 2) / 153
  let d := doy - (153 * mp + 2) / 5 + 1
  let m := if mp < 10 then mp + 3 else mp - 9
  (if m ≤ 2 then y + 1 else y, m, d)

/-- `Date.prototype.toISOString` for a millisecond epoch timestamp
(`YYYY-MM-DDTHH:mm:ss.sssZ`; the extended `±YYYYYY` year form JS uses
outside years 0-9999 is not modelled — no claim touches it). -/
def toISOString (t : Int) : String :=
  let days := Int.ediv t 86400000
  let ms := (Int.emod t 86400000).toNat
  let c := civilFromDays days
  padNat 4 c.1.toNat ++ "-" ++ padNat 2 c.2.1 ++ "-" ++ padNat 2 c.2.2 ++
    "T" ++ padNat 2 (ms / 3600000) ++ ":" ++ padNat 2 (ms / 60000 % 60) ++
    ":" ++ padNat 2 (ms / 1000 % 60) ++ "." ++ padNat 3 (ms % 1000) ++ "Z"

/-- The string form of an `action` field. -/
def Action.toStr : Action → String
  | .borrow => "borrow"
  | .ret => "return"

/-- How a `Book` record surfaces as a JS object (both a live `Book`
instance and its JSON image have exactly these own enumerable fields). -/
def bookToJv (b : Book) : Jv :=
  .obj [("isbn", .str b.isbn), ("title", .str b.title),
        ("author", .str b.author), ("publicationYear", .num b.publicationYear),
        ("isAvailable", .bool b.isAvailable)]

/-- A live history record `{ isbn, action, timestamp: Date }` as a JS
object (the `timestamp` field holds a `Date` object). -/
def eventToJv (e : Event) : Jv :=
  .obj [("isbn", .str e.isbn), ("action", .str e.action.toStr),
        ("timestamp", .date e.timestamp)]

/-- The JSON image of a history record after `JSON.stringify` /
`JSON.parse`: the `Date` has become its ISO string. -/
def eventToJsonJv (e : Event) : Jv :=
  .obj [("isbn", .str e.isbn), ("action", .str e.action.toStr),
        ("timestamp", .str (toISOString e.timestamp))]

/-- `library.js` `exportToJSON()`, modelled at the level of the parse tree
of the produced text: `JSON.parse (JSON.stringify {books: [...entries],
categories: [...entries], borrowHistory: [...entries]})`.  Two
serialization effects of `JSON.stringify` are visible here: each category
`Set` collapses to the empty object (a `Set` has no own enumerable
properties), and each event `Date` becomes its ISO string. -/
def exportToJSON (lib : Library) : Jv :=
  .obj
    [("books",
      .arr (lib.books.map (fun p => .arr [.str p.1, bookToJv p.2]))),
     ("categories",
      .arr (lib.categories.map (fun p => .arr [.str p.1, .obj []]))),
     ("borrowHistory",
      .arr (lib.borrowHistory.map
        (fun p => .arr [.str p.1, .arr (p.2.map eventToJsonJv)])))]

/-- The post-`importFromJSON` shape of a `Library`: the three stores are
plain JS `Map`s whose keys and values are whatever `JSON.parse` produced
(`importFromJSON` performs no decoding), while `performanceMetrics` is
untouched.  A pre-import `Library` injects into this type via
`Library.toJsState`. -/
structure JsLibrary where
  books : List (Jv × Jv)
  categories : List (Jv × Jv)
  borrowHistory : List (Jv × Jv)
  operations : Nat
  startTime : Int
  lastOptimization : Int

/-- The `JsLibrary` view of a live `Library`: string keys, `Book`
instances as objects, category `Set`s as `Jv.set`, history arrays of
records whose `timestamp` is a `Date`. -/
def Library.toJsState (lib : Library) : JsLibrary :=
  { books := lib.books.map (fun p => (.str p.1, bookToJv p.2))
    categories := lib.categories.map (fun p => (.str p.1, .set p.2))
    borrowHistory :=
      lib.borrowHistory.map (fun p => (.str p.1, .arr (p.2.map eventToJv)))
    operations := lib.operations
    startTime := lib.startTime
    lastOptimization := lib.lastOptimization }

/-- JS property read `v[name]` as used on the parsed snapshot
(`data.books` etc.): a field of a plain object, `undefined` (`none`)
elsewhere.  (`JSON.parse` cannot yield objects with duplicate keys, so
first-match lookup is exact.) -/
def jvGet (v : Jv) (name : String) : Option Jv :=
  match v with
  | .obj fields => mapGet fields name
  | _ => none

/-- One entry consumed by the `Map` constructor: the iterator value must
be an object (`e[0]` is the key, `e[1]` the value, `undefined` when
absent); a primitive entry raises `TypeError`. -/
def mapEntryOfJv : Jv → Except JsError (Jv × Jv)
  | .arr l => .ok (l.getD 0 .undef, l.getD 1 .undef)
  | .obj fields =>
      .ok ((mapGet fields "0").getD .undef, (mapGet fields "1").getD .undef)
  | _ => .error (.typeFail "Iterator value is not an entry object")

/-- JS `new Map(x)` for the values reachable from a parsed snapshot:
`undefined`/`null` give an empty map, an array is consumed entrywise, any
other (non-iterable) value raises `TypeError`.  (An empty string is
iterable and also gives an empty map; a non-empty string yields
non-object iterator values.) -/
def newMapFromJv : Option Jv → Except JsError (List (Jv × Jv))
  | none => .ok []
  | some .null => .ok []
  | some (.str s) =>
      if s = "" then .ok []
      else .error (.typeFail "Iterator value is not an entry object")
  | some (.arr l) => l.mapM mapEntryOfJv
  | some _ => .error (.typeFail "object is not iterable")

/-- `library.js` `importFromJSON(jsonData)`.  The input is the result of
`JSON.parse(jsonData)`: `none` when the text is malformed (`JSON.parse`
throws before anything is assigned), otherwise the parsed value.  The
three `this.X = new Map(data.X)` assignments run in source order, so a
constructor failure leaves the assignments already made in place.  A
`none` error component is the JS `return true`. -/
def importFromJSON (lib : Library) (input : Option Jv) :
    Option JsError × JsLibrary :=
  let st := lib.toJsState
  match input with
  | none => (some (.parseFail "Unexpected token in JSON"), st)
  | some .null =>
      (some (.typeFail "Cannot read properties of null"), st)
  | some data =>
    match newMapFromJv (jvGet data "books") with
    | .error e => (some e, st)
    | .ok books' =>
      let st := { st with books := books' }
      match newMapFromJv (jvGet data "categories") with
      | .error e => (some e, st)
      | .ok categories' =>
        let st := { st with categories := categories' }
        match newMapFromJv (jvGet data "borrowHistory") with
        | .error e => (some e, st)
        | .ok history' => (none, { st with borrowHistory := history' })

/-! Helper lemmas about the embedded `Map` operations. -/

theorem mapGet_mapSet_self {α : Type} (m : List (String × α)) (k : String)
    (v : α) : mapGet (mapSet m k v) k = some v := by
  induction m with
  | nil => simp [mapSet, mapGet]
  | cons p rest ih =>
    obtain ⟨k', v'⟩ := p
    by_cases h : k' = k
    · simp [mapSet, mapGet, h]
    · simp [mapSet, mapGet, h, ih]

theorem mapGet_mapSet_ne {α : Type} (m : List (String × α)) (k k' : String)
    (v : α) (h : k' ≠ k) : mapGet (mapSet m k v) k' = mapGet m k' := by
  induction m with
  | nil => simp [mapSet, mapGet, Ne.symm h]
  | cons p rest ih =>
    obtain ⟨k'', v''⟩ := p
    by_cases hk : k'' = k
    · subst hk
      simp [mapSet, mapGet, Ne.symm h]
    · by_cases hk' : k'' = k'
      · simp [mapSet, mapGet, hk, hk', h]
      · simp [mapSet, mapGet, hk, hk', ih]

theorem mapGet_eq_none_iff {α : Type} (m : List (String × α)) (k : String) :
    mapGet m k = none ↔ k ∉ m.map Prod.fst := by
  induction m with
  | nil => simp [mapGet]
  | cons p rest ih =>
    obtain ⟨k', v'⟩ := p
    by_cases h : k' = k
    · simp [mapGet, h]
    · simp [mapGet, h, ih, Ne.symm h]

theorem mapGet_mapDelete_self {α : Type} (m : List (String × α))
    (k : String) (hnd : (m.map Prod.fst).Nodup) :
    mapGet (mapDelete m k) k = none := by
  induction m with
  | nil => simp [mapDelete, mapGet]
  | cons p rest ih =>
    obtain ⟨k', v'⟩ := p
    simp only [List.map_cons, List.nodup_cons] at hnd
    by_cases h : k' = k
    · subst h
      simp only [mapDelete, if_pos rfl]
      exact (mapGet_eq_none_iff rest k').mpr hnd.1
    · simp [mapDelete, mapGet, h, ih hnd.2]

theorem mapHas_iff_isSome {α : Type} (m : List (String × α)) (k : String) :
    mapHas m k = true ↔ (mapGet m k).isSome = true := Iff.rfl

/-! Correctness of the substring test with respect to `List.IsPrefix` /
`List.IsInfix`. -/

theorem strStarts_iff (s pat : List Char) :
    strStarts s pat = true ↔ pat <+: s := by
  induction pat generalizing s with
  | nil => simp [strStarts]
  | cons p ps ih =>
    cases s with
    | nil => simp [strStarts]
    | cons c cs =>
      simp only [strStarts, Bool.and_eq_true, decide_eq_true_eq, ih,
        List.cons_prefix_cons]
      exact ⟨fun hh => ⟨hh.1.symm, hh.2⟩, fun hh => ⟨hh.1.symm, hh.2⟩⟩

theorem containsSub_iff (s pat : List Char) :
    containsSub s pat = true ↔ pat <:+: s := by
  induction s with
  | nil =>
    simp [containsSub, strStarts_iff, List.prefix_nil, List.infix_nil]
  | cons c cs ih =>
    simp [containsSub, strStarts_iff, ih, List.infix_cons_iff]

theorem strIncludes_iff (haystack needle : String) :
    strIncludes haystack needle = true ↔ needle.data <:+: haystack.data :=
  containsSub_iff haystack.data needle.data

theorem mapHas_eq_false {α : Type} (m : List (String × α)) (k : String) :
    mapHas m k = false ↔ mapGet m k = none := by
  cases h : mapGet m k <;> simp [mapHas, h]

/-! Equational descriptions of the lending operations, one per branch of
the source. -/

theorem borrowBook_not_found (lib : Library) (t : Int) (key u : String)
    (h : mapGet lib.books key = none) :
    borrowBook lib t key u =
      (.error (.jsError "Book not found"),
       { lib with operations := lib.operations + 1 }) := by
  simp [borrowBook, h]

theorem borrowBook_conflict (lib : Library) (t : Int) (key u : String)
    (b : Book) (h : mapGet lib.books key = some b)
    (hav : b.isAvailable = false) :
    borrowBook lib t key u =
      (.error (.jsError "Book is not available"),
       { lib with operations := lib.operations + 1 }) := by
  simp [borrowBook, h, hav]

theorem borrowBook_ok (lib : Library) (t : Int) (key u : String)
    (b : Book) (h : mapGet lib.books key = some b)
    (hav : b.isAvailable = true) :
    borrowBook lib t key u =
      (.ok { b with isAvailable := false },
       let hist :=
         if mapHas lib.borrowHistory u then lib.borrowHistory
         else mapSet lib.borrowHistory u []
       { lib with
         operations := lib.operations + 1
         books := mapSet lib.books key { b with isAvailable := false }
         borrowHistory :=
           mapSet hist u
             ((mapGet hist u).getD [] ++ [⟨key, Action.borrow, t⟩]) }) := by
  simp [borrowBook, h, hav]

theorem returnBook_not_found (lib : Library) (t : Int) (key u : String)
    (h : mapGet lib.books key = none) :
    returnBook lib t key u =
      (.error (.jsError "Book not found"),
       { lib with operations := lib.operations + 1 }) := by
  simp [returnBook, h]

theorem returnBook_conflict (lib : Library) (t : Int) (key u : String)
    (b : Book) (h : mapGet lib.books key = some b)
    (hav : b.isAvailable = true) :
    returnBook lib t key u =
      (.error (.jsError "Book is already in library"),
       { lib with operations := lib.operations + 1 }) := by
  simp [returnBook, h, hav]

theorem returnBook_ok (lib : Library) (t : Int) (key u : String)
    (b : Book) (h : mapGet lib.books key = some b)
    (hav : b.isAvailable = false) :
    returnBook lib t key u =
      (.ok { b with isAvailable := true },
       if mapHas lib.borrowHistory u then
         { lib with
           operations := lib.operations + 1
           books := mapSet lib.books key { b with isAvailable := true }
           borrowHistory :=
             mapSet lib.borrowHistory u
               ((mapGet lib.borrowHistory u).getD []
                 ++ [⟨key, Action.ret, t⟩]) }
       else
         { lib with
           operations := lib.operations + 1
           books := mapSet lib.books key { b with isAvailable := true } }) := by
  by_cases hh : mapHas lib.borrowHistory u
  · simp [returnBook, h, hav, hh]
  · simp [returnBook, h, hav, hh]

/-! Concrete states, built through the public operations, used as inputs
of witnesses and counterexamples. -/

/-- A fresh library to which `"123"`/"Test"/"Author"/2024 was added (at
current year 2024, instant 0). -/
def sampleLib : Library :=
  (addBook (Library.init 0) 2024 "123" "Test" "Author" 2024).2

/-- `sampleLib` after `"user1"` borrowed `"123"` at instant 100. -/
def sampleBorrowed : Library :=
  (borrowBook sampleLib 100 "123" "user1").2

/-- `sampleBorrowed` after `"user1"` returned `"123"` at instant 5100. -/
def sampleReturned : Library :=
  (returnBook sampleBorrowed 5100 "123" "user1").2

/-- A library holding `"123"` in category `"Programming"`, borrowed by
`"user1"` at instant 1000. -/
def sampleCat : Library :=
  (borrowBook
    ((addBookWithCategory (Library.init 0) 2024 "123" "Test" "Author" 2024
        "Programming").2)
    1000 "123" "user1").2

/-! Claim C4. -/

/-- Claim C4, counterexample: with non-empty key/title/author and year 0
(which is below 1900), `addBook` fails with the `ValidationError` message
`"All book details are required"` — `!publicationYear` is true for 0 — and
not with the `RangeError` message the claim requires for every
out-of-range year. -/
theorem c4_counterexample :
    (addBook (Library.init 0) 2025 "key" "title" "auth" 0).1 =
        .error (.jsError "All book details are required") ∧
      JsError.jsError "All book details are required" ≠
        .jsError "Invalid publication year" := by
  constructor
  · decide
  · decide

/-- Claim C4, amended: with non-empty key, title and author, a NONZERO
year below 1900 or above the current year fails with the range message;
year 0 (falsy in JS) instead fails with the required-details message; and
with a fresh key and `1900 ≤ currentYear`, the boundary years 1900 and
`currentYear` succeed, creating the book with `isAvailable = true`. -/
theorem c4_addBook_year_validation (lib : Library) (currentYear year : Int)
    (isbn title author : String) :
    (isbn ≠ "" → title ≠ "" → author ≠ "" → year ≠ 0 →
      year < 1900 ∨ year > currentYear →
      (addBook lib currentYear isbn title author year).1 =
        .error (.jsError "Invalid publication year")) ∧
    (year = 0 →
      (addBook lib currentYear isbn title author year).1 =
        .error (.jsError "All book details are required")) ∧
    (isbn ≠ "" → title ≠ "" → author ≠ "" →
      mapHas lib.books isbn = false → 1900 ≤ currentYear →
      (addBook lib currentYear isbn title author 1900).1 =
          .ok ⟨isbn, title, author, 1900, true⟩ ∧
        (addBook lib currentYear isbn title author currentYear).1 =
          .ok ⟨isbn, title, author, currentYear, true⟩) := by
  refine ⟨?_, ?_, ?_⟩
  · intro h1 h2 h3 h4 hrange
    simp [addBook, h1, h2, h3, h4, hrange]
  · intro h0
    simp [addBook, h0]
  · intro h1 h2 h3 hhas hcy
    have hne : currentYear ≠ 0 := by omega
    have hlt : ¬currentYear < 1900 := by omega
    constructor
    · simp [addBook, h1, h2, h3, hhas, hlt]
    · simp [addBook, h1, h2, h3, hne, hhas, hlt]

/-- Claim C4, witness: at a fresh library with current year 2025, year
2050 fails with the range message and year 1900 succeeds. -/
theorem c4_witness :
    (addBook (Library.init 0) 2025 "a" "b" "c" 2050).1 =
        .error (.jsError "Invalid publication year") ∧
      (addBook (Library.init 0) 2025 "a" "b" "c" 1900).1 =
        .ok ⟨"a", "b", "c", 1900, true⟩ :=
  ⟨(c4_addBook_year_validation (Library.init 0) 2025 2050 "a" "b" "c").1
      (by decide) (by decide) (by decide) (by decide) (by omega),
   ((c4_addBook_year_validation (Library.init 0) 2025 2050 "a" "b" "c").2.2
      (by decide) (by decide) (by decide) (by decide) (by omega)).1⟩

/-! Claim C6. -/

/-- Claim C6, counterexample: a history with one matched borrow/return
pair whose timestamps differ (100 and 5100) still reports
`averageLoanDuration = 0`, where the claim requires a nonzero value. -/
theorem c6_counterexample :
    getUserHistory sampleReturned "user1" =
        [⟨"123", Action.borrow, 100⟩, ⟨"123", Action.ret, 5100⟩] ∧
      (100 : Int) ≠ 5100 ∧
      (getBorrowingStats sampleReturned).totalBorrows = 1 ∧
      (getBorrowingStats sampleReturned).averageLoanDuration = 0 := by
  refine ⟨by decide, by decide, by decide, by decide⟩

/-- Claim C6, amended: `getBorrowingStats` performs no loan-duration
computation at all — the `averageLoanDuration` field is the initial `0`
for every library state, whatever the history contains. -/
theorem c6_averageLoanDuration_always_zero (lib : Library) :
    (getBorrowingStats lib).averageLoanDuration = 0 := rfl

/-! Claim C8. -/

/-- Claim C8, counterexample: at zero uptime with a nonzero operation
counter, `operationsPerSecond` is the IEEE infinity produced by the JS
division `1 / 0` — not zero (and the returned field always holds a
number, never `undefined`). -/
theorem c8_counterexample :
    (getPerformanceMetrics sampleLib 0).uptime = 0 ∧
      (getPerformanceMetrics sampleLib 0).operationsPerSecond = JsNum.inf ∧
      JsNum.inf ≠ JsNum.num 0 := by
  have h1 : sampleLib.operations = 1 := by decide
  have h2 : sampleLib.startTime = 0 := by decide
  refine ⟨by simp [getPerformanceMetrics, h2], ?_, by decide⟩
  simp [getPerformanceMetrics, h1, h2, jsDiv]

/-- Claim C8, amended: `getPerformanceMetrics` is total (the embedding of
JS division never throws), returns the counter, `uptime = now −
startTime`, and `operationsPerSecond` as the JS division of the counter by
the uptime in seconds; at zero uptime that division yields `NaN` when the
counter is 0 and `+Infinity` otherwise — not zero and not `undefined`. -/
theorem c8_metrics (lib : Library) (now : Int) :
    (getPerformanceMetrics lib now).operations = lib.operations ∧
      (getPerformanceMetrics lib now).uptime = now - lib.startTime ∧
      (getPerformanceMetrics lib now).operationsPerSecond =
        jsDiv (lib.operations : ℚ) (((now - lib.startTime : Int) : ℚ) / 1000) ∧
      (now = lib.startTime →
        (getPerformanceMetrics lib now).operationsPerSecond =
          if lib.operations = 0 then JsNum.nan else JsNum.inf) := by
  refine ⟨rfl, rfl, rfl, ?_⟩
  intro h
  subst h
  simp only [getPerformanceMetrics, sub_self, Int.cast_zero, zero_div]
  by_cases hop : lib.operations = 0
  · simp [jsDiv, hop]
  · have hpos : 0 < (lib.operations : ℚ) := by
      exact_mod_cast Nat.pos_of_ne_zero hop
    simp [jsDiv, hop, Nat.cast_eq_zero, hpos, ne_of_gt hpos]

/-- Claim C8, witness: instantiated at a fresh library observed at its own
start instant (zero uptime, zero operations: `NaN`). -/
theorem c8_metrics_witness :
    (0 : Int) = (Library.init 0).startTime ∧
      (getPerformanceMetrics (Library.init 0) 0).operationsPerSecond =
        if (Library.init 0).operations = 0 then JsNum.nan else JsNum.inf :=
  ⟨rfl, (c8_metrics (Library.init 0) 0).2.2.2 rfl⟩

/-! Claim C2. -/

/-- Claim C2, counterexample: `"user1"` borrowed `"123"`, then `"userB"`
— who has no history log — returns it.  The call succeeds and makes the
book available, but no log is created for `"userB"` (the source only
appends under `if (this.borrowHistory.has(userId))`), so `"userB"`'s log
has no last `return` event, contrary to the claim. -/
theorem c2_counterexample :
    (returnBook sampleBorrowed 200 "123" "userB").1 =
        .ok ⟨"123", "Test", "Author", 2024, true⟩ ∧
      mapGet (returnBook sampleBorrowed 200 "123" "userB").2.borrowHistory
          "userB" = none ∧
      getUserHistory (returnBook sampleBorrowed 200 "123" "userB").2
          "userB" = [] := by
  refine ⟨by decide, by decide, by decide⟩

/-- Claim C2, amended: a successful `returnBook(key, actor)` on an
on-loan book makes it available and, WHEN the actor already has a history
log, appends a `return` event for that key which becomes the log's last
event; when the actor has no log, no log is created and the borrow
history is left unchanged. -/
theorem c2_returnBook_semantics (lib : Library) (now : Int)
    (key actor : String) (b : Book) (hb : mapGet lib.books key = some b)
    (hav : b.isAvailable = false) :
    (returnBook lib now key actor).1 = .ok { b with isAvailable := true } ∧
      (returnBook lib now key actor).2.books =
        mapSet lib.books key { b with isAvailable := true } ∧
      (mapHas lib.borrowHistory actor = true →
        mapGet (returnBook lib now key actor).2.borrowHistory actor =
            some (getUserHistory lib actor ++ [⟨key, Action.ret, now⟩]) ∧
          (getUserHistory (returnBook lib now key actor).2 actor).getLast? =
            some ⟨key, Action.ret, now⟩) ∧
      (mapHas lib.borrowHistory actor = false →
        (returnBook lib now key actor).2.borrowHistory =
          lib.borrowHistory) := by
  rw [returnBook_ok lib now key actor b hb hav]
  by_cases hh : mapHas lib.borrowHistory actor
  · refine ⟨rfl, by simp [hh], ?_, by simp [hh]⟩
    intro _
    have hget :
        mapGet
            (mapSet lib.borrowHistory actor
              ((mapGet lib.borrowHistory actor).getD []
                ++ [⟨key, Action.ret, now⟩])) actor =
          some ((mapGet lib.borrowHistory actor).getD []
            ++ [⟨key, Action.ret, now⟩]) :=
      mapGet_mapSet_self lib.borrowHistory actor _
    refine ⟨by simp [hh, hget, getUserHistory], ?_⟩
    simp [hh, getUserHistory, hget, List.getLast?_concat]
  · refine ⟨rfl, by simp [hh], by simp [hh], by simp [hh]⟩

/-- Claim C2, witness: the amended theorem applied to `sampleBorrowed`
(where `"user1"` holds the book and has a log). -/
theorem c2_returnBook_semantics_witness :
    mapGet sampleBorrowed.books "123" =
        some ⟨"123", "Test", "Author", 2024, false⟩ ∧
      ((returnBook sampleBorrowed 5100 "123" "user1").1 =
          .ok ⟨"123", "Test", "Author", 2024, true⟩ ∧
        (returnBook sampleBorrowed 5100 "123" "user1").2.books =
          mapSet sampleBorrowed.books "123"
            ⟨"123", "Test", "Author", 2024, true⟩ ∧
        (mapHas sampleBorrowed.borrowHistory "user1" = true →
          mapGet (returnBook sampleBorrowed 5100 "123" "user1").2.borrowHistory
              "user1" =
              some (getUserHistory sampleBorrowed "user1"
                ++ [⟨"123", Action.ret, 5100⟩]) ∧
            (getUserHistory (returnBook sampleBorrowed 5100 "123" "user1").2
                "user1").getLast? = some ⟨"123", Action.ret, 5100⟩) ∧
        (mapHas sampleBorrowed.borrowHistory "user1" = false →
          (returnBook sampleBorrowed 5100 "123" "user1").2.borrowHistory =
            sampleBorrowed.borrowHistory)) :=
  ⟨by decide,
   c2_returnBook_semantics sampleBorrowed 5100 "123" "user1"
     ⟨"123", "Test", "Author", 2024, false⟩ (by decide) (by decide)⟩

/-! Claim C7. -/

/-- Claim C7: `searchBooks` returns the empty list for an absent
(`undefined`) or empty query; for a non-empty query it returns exactly
the books whose lower-cased title, author or key — or decimal year string
— contains the lower-cased query as a contiguous substring; and the
queries `"javascript"` and `"JavaScript"` produce identical results on
every registry. -/
theorem c7_searchBooks (lib : Library) :
    (searchBooks lib none).1 = [] ∧
      (searchBooks lib (some "")).1 = [] ∧
      (∀ q b, q ≠ "" →
        (b ∈ (searchBooks lib (some q)).1 ↔
          b ∈ lib.books.map Prod.snd ∧
            ((lowerStr q).data <:+: (lowerStr b.title).data ∨
             (lowerStr q).data <:+: (lowerStr b.author).data ∨
             (lowerStr q).data <:+: (lowerStr b.isbn).data ∨
             (lowerStr q).data <:+: (toString b.publicationYear).data))) ∧
      (searchBooks lib (some "javascript")).1 =
        (searchBooks lib (some "JavaScript")).1 := by
  refine ⟨rfl, rfl, ?_, ?_⟩
  · intro q b hq
    simp [searchBooks, hq, List.mem_filter, strIncludes_iff, or_assoc]
  · have h1 : lowerStr "JavaScript" = "javascript" := by decide
    have h2 : lowerStr "javascript" = "javascript" := by decide
    simp [searchBooks, h1, h2]

/-- Claim C7, witness: the membership characterization applied at a
concrete non-empty query over `sampleLib`. -/
theorem c7_searchBooks_witness :
    "test" ≠ "" ∧
      (Book.mk "123" "Test" "Author" 2024 true ∈
          (searchBooks sampleLib (some "test")).1 ↔
        Book.mk "123" "Test" "Author" 2024 true ∈
            sampleLib.books.map Prod.snd ∧
          ((lowerStr "test").data <:+: (lowerStr "Test").data ∨
           (lowerStr "test").data <:+: (lowerStr "Author").data ∨
           (lowerStr "test").data <:+: (lowerStr "123").data ∨
           (lowerStr "test").data <:+: (toString (2024 : Int)).data)) :=
  ⟨by decide,
   (c7_searchBooks sampleLib).2.2.1 "test" ⟨"123", "Test", "Author", 2024, true⟩
     (by decide)⟩

/-! Claim C1. -/

/-- The round trip of claim C1 on the reachable state `sampleCat`:
export, then import into a fresh `Library`. -/
def c1RoundTrip : Option JsError × JsLibrary :=
  importFromJSON (Library.init 0) (some (exportToJSON sampleCat))

/-- Claim C1: the snapshot round trip on a reachable state with one
non-empty category.  The import succeeds and the book registry is
reproduced element-wise, but the category index is not: `JSON.stringify`
serializes the category `Set` as the empty object `{}` (a `Set` has no
own enumerable properties), so the imported `"Programming"` entry holds
an empty object in place of the key set `{"123"}`.  The round trip
therefore does not reproduce the category index, refuting the claim. -/
theorem c1_roundtrip_loses_categories :
    sampleCat.categories = [("Programming", ["123"])] ∧
      c1RoundTrip.1 = none ∧
      c1RoundTrip.2.books = sampleCat.toJsState.books ∧
      c1RoundTrip.2.categories = [(Jv.str "Programming", Jv.obj [])] ∧
      sampleCat.toJsState.categories =
        [(Jv.str "Programming", Jv.set ["123"])] ∧
      Jv.obj [] ≠ Jv.set ["123"] :=
  ⟨by decide, rfl, rfl, rfl, rfl, fun h => nomatch h⟩

/-! Claim C3. -/

/-- A parseable snapshot whose `books` field is a valid entry array but
whose `categories` field is the number 5 — not iterable, so
`new Map(data.categories)` throws after `this.books` was already
replaced. -/
def badImport : Jv :=
  Jv.obj [("books", .arr [.arr [.str "k", .obj []]]),
          ("categories", .num 5), ("borrowHistory", .arr [])]

/-- Claim C3, counterexample: importing `badImport` into `sampleLib`
fails (with a `TypeError`, raised by the `Map` constructor), yet the
books store has already been replaced — its single key is now `"k"`
instead of the previous `"123"` — while the category store still holds
the old contents.  The failing call thus leaves a partial replacement,
contrary to the claim. -/
theorem c3_counterexample :
    (importFromJSON sampleLib (some badImport)).1 =
        some (.typeFail "object is not iterable") ∧
      (importFromJSON sampleLib (some badImport)).2.books =
        [(Jv.str "k", Jv.obj [])] ∧
      sampleLib.toJsState.books =
        [(Jv.str "123", bookToJv ⟨"123", "Test", "Author", 2024, true⟩)] ∧
      (importFromJSON sampleLib (some badImport)).2.categories =
        sampleLib.toJsState.categories ∧
      Jv.str "k" ≠ Jv.str "123" := by
  refine ⟨rfl, rfl, rfl, rfl, ?_⟩
  intro h
  injection h with h2
  exact absurd h2 (by decide)

/-- Claim C3, amended: `importFromJSON` fails with the parse error on
malformed text and leaves all three stores untouched, and likewise fails
atomically when the parsed value is `null` or when the FIRST store's
field is non-iterable; but when `books` converts and a later store's
field fails, the stores already assigned keep their new values — the
failure is not atomic in general (see the counterexample). -/
theorem c3_import_atomic_on_parse_failure (lib : Library) :
    (importFromJSON lib none).1 =
        some (.parseFail "Unexpected token in JSON") ∧
      (importFromJSON lib none).2 = lib.toJsState ∧
      importFromJSON lib (some .null) =
        (some (.typeFail "Cannot read properties of null"),
          lib.toJsState) ∧
      (∀ j e, newMapFromJv (jvGet j "books") = .error e → j ≠ .null →
        importFromJSON lib (some j) = (some e, lib.toJsState)) := by
  refine ⟨rfl, rfl, rfl, ?_⟩
  intro j e h hnull
  cases j <;>
    first
      | exact absurd rfl hnull
      | (rw [importFromJSON, h]
         all_goals exact fun hfalse => Jv.noConfusion hfalse)

/-- Claim C3, witness: the first-store failure case applied at a concrete
input whose `books` field is the non-iterable number 5. -/
theorem c3_import_witness :
    newMapFromJv (jvGet (Jv.obj [("books", Jv.num 5)]) "books") =
        .error (.typeFail "object is not iterable") ∧
      Jv.obj [("books", Jv.num 5)] ≠ Jv.null ∧
      importFromJSON sampleLib (some (Jv.obj [("books", Jv.num 5)])) =
        (some (.typeFail "object is not iterable"),
          sampleLib.toJsState) :=
  ⟨rfl, fun h => Jv.noConfusion h,
   (c3_import_atomic_on_parse_failure sampleLib).2.2.2
     (Jv.obj [("books", Jv.num 5)]) (.typeFail "object is not iterable")
     rfl (fun h => Jv.noConfusion h)⟩

/-! Claim C9. -/

/-- The success branch of `deleteBook` as one equation. -/
theorem deleteBook_ok (lib : Library) (key : String) (b : Book)
    (hb : mapGet lib.books key = some b) (hav : b.isAvailable = true) :
    deleteBook lib key =
      (.ok (mapHas lib.books key),
       { lib with
         operations := lib.operations + 1
         categories :=
           lib.categories.map
             (fun (p : String × List String) =>
               (p.1, p.2.filter (fun i => i != key)))
         books := mapDelete lib.books key }) := by
  simp [deleteBook, hb, hav]

/-- Claim C9: a successful `deleteBook(key)` (key present, book
available, registry keys duplicate-free as every reachable registry is)
removes the key from the registry and from every category set, leaves the
borrow history untouched, and subsequent `getBorrowingStats` still counts
the deleted key's `borrow` events: `totalBorrows` and `popularBooks` are
identical before and after the deletion. -/
theorem c9_deleteBook_frame (lib : Library) (key : String) (b : Book)
    (hb : mapGet lib.books key = some b) (hav : b.isAvailable = true)
    (hnd : (lib.books.map Prod.fst).Nodup) :
    (deleteBook lib key).1 = .ok true ∧
      mapGet (deleteBook lib key).2.books key = none ∧
      (∀ p ∈ (deleteBook lib key).2.categories, key ∉ p.2) ∧
      (deleteBook lib key).2.borrowHistory = lib.borrowHistory ∧
      (getBorrowingStats (deleteBook lib key).2).totalBorrows =
        (getBorrowingStats lib).totalBorrows ∧
      (getBorrowingStats (deleteBook lib key).2).popularBooks =
        (getBorrowingStats lib).popularBooks := by
  rw [deleteBook_ok lib key b hb hav]
  refine ⟨by simp [mapHas, hb], ?_, ?_, rfl, rfl, rfl⟩
  · exact mapGet_mapDelete_self lib.books key hnd
  · intro p hp hkey
    simp only [List.mem_map] at hp
    obtain ⟨q, hq, rfl⟩ := hp
    simp only [List.mem_filter] at hkey
    exact absurd hkey.2 (by simp)

/-- Claim C9, witness: deleting `"123"` from `sampleCat` after its loan
is returned; the book was borrowed once by `"user1"`, and the stats keep
that borrow after the deletion. -/
theorem c9_deleteBook_frame_witness :
    mapGet (returnBook sampleCat 2000 "123" "user1").2.books "123" =
        some ⟨"123", "Test", "Author", 2024, true⟩ ∧
      ((deleteBook (returnBook sampleCat 2000 "123" "user1").2 "123").1 =
          .ok true ∧
        mapGet (deleteBook (returnBook sampleCat 2000 "123" "user1").2
            "123").2.books "123" = none ∧
        (∀ p ∈ (deleteBook (returnBook sampleCat 2000 "123" "user1").2
            "123").2.categories, "123" ∉ p.2) ∧
        (deleteBook (returnBook sampleCat 2000 "123" "user1").2
            "123").2.borrowHistory =
          (returnBook sampleCat 2000 "123" "user1").2.borrowHistory ∧
        (getBorrowingStats (deleteBook
            (returnBook sampleCat 2000 "123" "user1").2 "123").2).totalBorrows =
          (getBorrowingStats
            (returnBook sampleCat 2000 "123" "user1").2).totalBorrows ∧
        (getBorrowingStats (deleteBook
            (returnBook sampleCat 2000 "123" "user1").2 "123").2).popularBooks =
          (getBorrowingStats
            (returnBook sampleCat 2000 "123" "user1").2).popularBooks) :=
  ⟨by decide,
   c9_deleteBook_frame (returnBook sampleCat 2000 "123" "user1").2 "123"
     ⟨"123", "Test", "Author", 2024, true⟩ (by decide) (by decide)
     (by decide)⟩

/-! Claim C10. -/

/-- Is an operation result a thrown error? -/
def isErr {ε α : Type} : Except ε α → Bool
  | .error _ => true
  | .ok _ => false

/-- Claim C10: each of `addBook`, `borrowBook`, `returnBook` and
`deleteBook` increments the operation counter by exactly one on every
call (the counter is bumped before validation), and a call that throws
changes nothing else: the failing call's post-state is exactly the prior
state with the counter bumped. -/
theorem c10_counter_and_frame (lib : Library) (currentYear year now : Int)
    (isbn title author userId : String) :
    ((addBook lib currentYear isbn title author year).2.operations =
        lib.operations + 1 ∧
      (isErr (addBook lib currentYear isbn title author year).1 = true →
        (addBook lib currentYear isbn title author year).2 =
          { lib with operations := lib.operations + 1 })) ∧
    ((borrowBook lib now isbn userId).2.operations = lib.operations + 1 ∧
      (isErr (borrowBook lib now isbn userId).1 = true →
        (borrowBook lib now isbn userId).2 =
          { lib with operations := lib.operations + 1 })) ∧
    ((returnBook lib now isbn userId).2.operations = lib.operations + 1 ∧
      (isErr (returnBook lib now isbn userId).1 = true →
        (returnBook lib now isbn userId).2 =
          { lib with operations := lib.operations + 1 })) ∧
    ((deleteBook lib isbn).2.operations = lib.operations + 1 ∧
      (isErr (deleteBook lib isbn).1 = true →
        (deleteBook lib isbn).2 =
          { lib with operations := lib.operations + 1 })) := by
  refine ⟨?_, ?_, ?_, ?_⟩
  · simp only [addBook]
    split
    · exact ⟨rfl, fun _ => rfl⟩
    · split
      · exact ⟨rfl, fun _ => rfl⟩
      · split
        · exact ⟨rfl, fun _ => rfl⟩
        · exact ⟨rfl, fun h => nomatch h⟩
  · simp only [borrowBook]
    split
    · exact ⟨rfl, fun _ => rfl⟩
    · split
      · exact ⟨rfl, fun _ => rfl⟩
      · exact ⟨rfl, fun h => nomatch h⟩
  · simp only [returnBook]
    split
    · exact ⟨rfl, fun _ => rfl⟩
    · split
      · exact ⟨rfl, fun _ => rfl⟩
      · split
        · exact ⟨rfl, fun h => nomatch h⟩
        · exact ⟨rfl, fun h => nomatch h⟩
  · simp only [deleteBook]
    split
    · exact ⟨rfl, fun _ => rfl⟩
    · split
      · exact ⟨rfl, fun _ => rfl⟩
      · exact ⟨rfl, fun h => nomatch h⟩

/-- Claim C10, witness: a failing `addBook` (duplicate key) on
`sampleLib` bumps the counter and changes nothing else. -/
theorem c10_counter_and_frame_witness :
    isErr (addBook sampleLib 2024 "123" "Other" "Person" 2020).1 = true ∧
      (addBook sampleLib 2024 "123" "Other" "Person" 2020).2 =
        { sampleLib with operations := sampleLib.operations + 1 } :=
  ⟨by decide,
   (c10_counter_and_frame sampleLib 2024 2020 0 "123" "Other" "Person"
       "u").1.2 (by decide)⟩

/-! Claim C5. -/

/-- Claim C5: the borrow/return state machine.  `borrowBook` fails with
the not-found error exactly on absent keys and with the conflict error
exactly on on-loan books, mutating nothing but the operation counter on
failure; on success it marks the book on loan and appends a `borrow`
event to the actor's log (created on demand; the JS default actor is the
`"anonymous"` sentinel, `borrowBookDefault`).  For any present key,
borrow-then-borrow always fails with the conflict error on the second
call, and borrow-then-return-then-borrow always succeeds. -/
theorem c5_borrow_state_machine (lib : Library) (t1 t2 t3 : Int)
    (key u : String) :
    (mapGet lib.books key = none →
      (borrowBook lib t1 key u).1 = .error (.jsError "Book not found") ∧
        (borrowBook lib t1 key u).2 =
          { lib with operations := lib.operations + 1 }) ∧
    (∀ b, mapGet lib.books key = some b → b.isAvailable = false →
      (borrowBook lib t1 key u).1 =
          .error (.jsError "Book is not available") ∧
        (borrowBook lib t1 key u).2 =
          { lib with operations := lib.operations + 1 }) ∧
    (∀ b, mapGet lib.books key = some b → b.isAvailable = true →
      (borrowBook lib t1 key u).1 = .ok { b with isAvailable := false } ∧
        mapGet (borrowBook lib t1 key u).2.borrowHistory u =
          some (getUserHistory lib u ++ [⟨key, Action.borrow, t1⟩])) ∧
    (mapHas lib.books key = true →
      (borrowBook (borrowBook lib t1 key u).2 t2 key u).1 =
        .error (.jsError "Book is not available")) ∧
    (mapHas lib.books key = true →
      ∃ b3,
        (borrowBook (returnBook (borrowBook lib t1 key u).2 t2 key u).2
            t3 key u).1 = .ok b3) ∧
    borrowBookDefault lib t1 key = borrowBook lib t1 key "anonymous" := by
  refine ⟨?_, ?_, ?_, ?_, ?_, rfl⟩
  · intro h
    rw [borrowBook_not_found lib t1 key u h]
    exact ⟨rfl, rfl⟩
  · intro b hb hav
    rw [borrowBook_conflict lib t1 key u b hb hav]
    exact ⟨rfl, rfl⟩
  · intro b hb hav
    rw [borrowBook_ok lib t1 key u b hb hav]
    refine ⟨rfl, ?_⟩
    by_cases hh : mapHas lib.borrowHistory u
    · simp [hh, mapGet_mapSet_self, getUserHistory]
    · have hnone : mapGet lib.borrowHistory u = none :=
        (mapHas_eq_false lib.borrowHistory u).mp (by simpa using hh)
      simp [hh, mapGet_mapSet_self, getUserHistory, hnone]
  · intro h
    obtain ⟨b, hb⟩ := Option.isSome_iff_exists.mp h
    by_cases hav : b.isAvailable = true
    · have e1 := borrowBook_ok lib t1 key u b hb hav
      have hbooks : (borrowBook lib t1 key u).2.books =
          mapSet lib.books key { b with isAvailable := false } := by
        rw [e1]
      have hget2 : mapGet (borrowBook lib t1 key u).2.books key =
          some { b with isAvailable := false } := by
        rw [hbooks]
        exact mapGet_mapSet_self lib.books key _
      rw [borrowBook_conflict _ t2 key u _ hget2 rfl]
    · have hav' : b.isAvailable = false := by simpa using hav
      have e1 := borrowBook_conflict lib t1 key u b hb hav'
      have hget2 : mapGet (borrowBook lib t1 key u).2.books key = some b := by
        rw [e1]
        exact hb
      rw [borrowBook_conflict _ t2 key u _ hget2 hav']
  · intro h
    obtain ⟨b, hb⟩ := Option.isSome_iff_exists.mp h
    by_cases hav : b.isAvailable = true
    · have e1 := borrowBook_ok lib t1 key u b hb hav
      have hget2 : mapGet (borrowBook lib t1 key u).2.books key =
          some { b with isAvailable := false } := by
        rw [e1]
        exact mapGet_mapSet_self lib.books key _
      have e2 := returnBook_ok (borrowBook lib t1 key u).2 t2 key u
        { b with isAvailable := false } hget2 rfl
      have hget3 :
          mapGet (returnBook (borrowBook lib t1 key u).2 t2 key u).2.books
            key = some { b with isAvailable := true } := by
        rw [e2]
        split
        · exact mapGet_mapSet_self _ key _
        · exact mapGet_mapSet_self _ key _
      refine ⟨{ b with isAvailable := false }, ?_⟩
      rw [borrowBook_ok _ t3 key u { b with isAvailable := true } hget3 rfl]
    · have hav' : b.isAvailable = false := by simpa using hav
      have e1 := borrowBook_conflict lib t1 key u b hb hav'
      have hget2 : mapGet (borrowBook lib t1 key u).2.books key = some b := by
        rw [e1]
        exact hb
      have e2 := returnBook_ok (borrowBook lib t1 key u).2 t2 key u b
        hget2 hav'
      have hget3 :
          mapGet (returnBook (borrowBook lib t1 key u).2 t2 key u).2.books
            key = some { b with isAvailable := true } := by
        rw [e2]
        split
        · exact mapGet_mapSet_self _ key _
        · exact mapGet_mapSet_self _ key _
      refine ⟨{ b with isAvailable := false }, ?_⟩
      rw [borrowBook_ok _ t3 key u { b with isAvailable := true } hget3 rfl]

/-- Claim C5, witness: the state machine exercised on `sampleLib`
(`"123"` present and available) and on a fresh empty library (key
absent). -/
theorem c5_borrow_state_machine_witness :
    mapGet (Library.init 0).books "123" = none ∧
      (borrowBook (Library.init 0) 1 "123" "u").1 =
        .error (.jsError "Book not found") ∧
      mapGet sampleLib.books "123" =
        some ⟨"123", "Test", "Author", 2024, true⟩ ∧
      (borrowBook sampleLib 1 "123" "u").1 =
        .ok ⟨"123", "Test", "Author", 2024, false⟩ ∧
      mapHas sampleLib.books "123" = true ∧
      (borrowBook (borrowBook sampleLib 1 "123" "u").2 2 "123" "u").1 =
        .error (.jsError "Book is not available") ∧
      (∃ b3,
        (borrowBook (returnBook (borrowBook sampleLib 1 "123" "u").2 2 "123"
            "u").2 3 "123" "u").1 = .ok b3) :=
  ⟨by decide,
   ((c5_borrow_state_machine (Library.init 0) 1 2 3 "123" "u").1
      (by decide)).1,
   by decide,
   ((c5_borrow_state_machine sampleLib 1 2 3 "123" "u").2.2.1
      ⟨"123", "Test", "Author", 2024, true⟩ (by decide) (by decide)).1,
   by decide,
   (c5_borrow_state_machine sampleLib 1 2 3 "123" "u").2.2.2.1 (by decide),
   (c5_borrow_state_machine sampleLib 1 2 3 "123" "u").2.2.2.2.1
     (by decide)⟩

end LibMS
